import Mathlib

/-!
Verification of `step ca certificate` / `step ca sign`
(src/command/ca/certificate.go).

Shallow embedding: each Go function in certificate.go becomes a Lean
function returning `Except Err Unit × Trace`.  The `Trace` records the
observable side effects relevant to the specification: network
contacts, key-pair generations, the signing requests transmitted to an
authority, the CA clients created (URL and trust options), and the
files written (path, data, mode).  External collaborators that the
specification treats as opaque (token codec, key generation and CSR
construction, PEM primitives, CA client transport, interactive
prompting, the offline CA) are fields of an `Env` structure of
functions; the orchestration logic itself is translated line by line
from the source.
-/

namespace StepCA

/-- The Common-Name-bearing view of `api.CertificateRequest`
(`req.CsrPEM.Subject.CommonName` is the only field certificate.go
inspects). -/
structure CertificateRequest where
  commonName : String
deriving Repr, DecidableEq

/-- The claims certificate.go reads from a parsed token: `tokenClaims`
with its `SHA` field plus `jose.Claims`' `Subject` and `Audience`. -/
structure TokenClaims where
  sha : String
  subject : String
  audience : List String
deriving Repr, DecidableEq

/-- An X.509 certificate, abstract (only passed to PEM serialization). -/
structure Certificate where
  raw : String
deriving Repr, DecidableEq

/-- A `pem.Block` produced by `pemutil.Serialize`, abstract. -/
structure PemBlock where
  raw : String
deriving Repr, DecidableEq

/-- `api.SignResponse`: leaf certificate (`ServerPEM`) and the
authority certificate (`CaPEM`). -/
structure SignResponse where
  serverPEM : Certificate
  caPEM : Certificate
deriving Repr, DecidableEq

/-- A validity bound (`api.TimeDuration` after resolution): `none`
is the zero value, meaning "authority default". -/
abbrev TimeBound := Option Int

/-- `api.SignRequest` as built in `signCertificateRequest` /
`signCertificateOfflineFlow`: CSR, one-time token, validity window. -/
structure SignRequest where
  csrPEM : CertificateRequest
  ott : String
  notBefore : TimeBound
  notAfter : TimeBound
deriving Repr, DecidableEq

/-- `ca.ClientOption` trust options used by certificate.go. -/
inductive ClientOption where
  | withRootSHA256 (sha : String)
  | withRootFile (path : String)
deriving Repr, DecidableEq

/-- Result of `pemutil.Read` as used in `signCertificateAction`: the
type assertion `csrInt.(*x509.CertificateRequest)` only distinguishes
a certificate request from every other PEM object type. -/
inductive PemObject where
  | certificateRequest (csr : CertificateRequest)
  | other (kind : String)
deriving Repr, DecidableEq

/-- Errors returned by certificate.go, one constructor per return
site; `errs.*` helpers keep their flag arguments. -/
inductive Err where
  | incompatibleFlags (a b : String)
  | mutuallyExclusiveFlags (a b : String)
  | requiredUnlessFlag (a b : String)
  | requiredFlag (a : String)
  | invalidFlagValue (flag value : String)
  | subjectMismatch (tokenSubject name : String)
  | tokenParseError
  | notACertificateRequest (file : String)
  | pemReadError
  | createSignRequestError
  | newClientError
  | signError
  | serializeError
  | fileError (file : String)
  | promptError
  | tokenFlowError
  | offlineCAError
  | generateTokenError
  | parseValidityError
deriving Repr, DecidableEq

/-- The flag values read from `cli.Context`. -/
structure Ctx where
  token : String
  offline : Bool
  san : List String
  caURL : String
  root : String
  notBefore : String
  notAfter : String
  caConfig : String
deriving Repr, DecidableEq

/-- Observable side effects of one invocation. -/
structure Trace where
  networkCalls : Nat
  keysGenerated : Nat
  clientsCreated : List (String × List ClientOption)
  signRequests : List SignRequest
  filesWritten : List (String × String × Nat)
deriving Repr, DecidableEq

def Trace.empty : Trace :=
  { networkCalls := 0, keysGenerated := 0, clientsCreated := [],
    signRequests := [], filesWritten := [] }

def Trace.append (t1 t2 : Trace) : Trace :=
  { networkCalls := t1.networkCalls + t2.networkCalls,
    keysGenerated := t1.keysGenerated + t2.keysGenerated,
    clientsCreated := t1.clientsCreated ++ t2.clientsCreated,
    signRequests := t1.signRequests ++ t2.signRequests,
    filesWritten := t1.filesWritten ++ t2.filesWritten }

/-- External collaborators, as oracles.  `Except Unit` failures stand
for the opaque `error` values Go returns from these calls. -/
structure Env where
  /-- `ca.CreateSignRequest(token)`: generates a fresh key pair and a
  CSR; returns the `CsrPEM` view and the private key (abstract). -/
  createSignRequest : String → Except Unit (CertificateRequest × String)
  /-- `jose.ParseSigned` + `UnsafeClaimsWithoutVerification`: pure
  claim extraction, no verification. -/
  parseToken : String → Except Unit TokenClaims
  /-- `pki.GetRootCAPath()`. -/
  rootCAPath : String
  /-- whether `os.Stat(pki.GetRootCAPath())` succeeds. -/
  rootCAPathExists : Bool
  /-- `flags.ParseTimeOrDuration`: `none` is `ok == false`. -/
  parseTimeOrDuration : String → Option TimeBound
  /-- `ui.Prompt` for an empty subject. -/
  prompt : Except Unit String
  /-- `newTokenFlow(ctx, subject, sans, caURL, root, "", "", "", "",
  notBefore, notAfter)`. -/
  newTokenFlow : String → List String → String → String →
    TimeBound → TimeBound → Except Unit String
  /-- whether `ca.NewClient(caURL, options...)` succeeds. -/
  newClient : String → List ClientOption → Except Unit Unit
  /-- `client.Sign(req)`. -/
  clientSign : SignRequest → Except Unit SignResponse
  /-- `pemutil.Serialize` on a certificate. -/
  serialize : Certificate → Except Unit PemBlock
  /-- `pem.EncodeToMemory`. -/
  pemEncodeToMemory : PemBlock → String
  /-- `pemutil.Serialize(pk, pemutil.ToFile(keyFile, 0600))`: the PEM
  data written on success. -/
  serializeKeyToFile : String → Except Unit String
  /-- whether `utils.WriteFile` succeeds for a path. -/
  writeFileOk : String → Bool
  /-- `pemutil.Read`. -/
  pemRead : String → Except Unit PemObject
  /-- `newOfflineCA(configFile)`. -/
  newOfflineCA : String → Except Unit Unit
  /-- `offlineCA.GenerateToken(ctx, subject)`. -/
  generateToken : String → Except Unit String
  /-- `offlineCA.Sign(req)` (local, no network). -/
  offlineSign : SignRequest → Except Unit SignResponse
  /-- `parseValidity(ctx)` in the offline flow. -/
  parseValidity : Except Unit (TimeBound × TimeBound)

/-- `0600`, the mode of every artifact certificate.go writes. -/
def mode0600 : Nat := 0o600

/-- `strings.ToLower`, character by character (the inputs
certificate.go compares are host names and URLs, in the ASCII range). -/
def strToLower (s : String) : String := ⟨s.data.map Char.toLower⟩

/-- `strings.HasPrefix(strings.ToLower(s), "http")`: the first four
characters of the lowered string are `http`. -/
def isHTTPLooking (s : String) : Bool :=
  (strToLower s).data.take 4 == ['h', 't', 't', 'p']

/-- The pinned-bootstrap test of `signCertificateRequest` (line 358):
`len(claims.SHA) > 0 && len(claims.Audience) > 0 &&
strings.HasPrefix(strings.ToLower(claims.Audience[0]), "http")`;
returns the selected audience entry when it holds. -/
def pinnedBootstrap (claims : TokenClaims) : Option String :=
  if 0 < claims.sha.length then
    match claims.audience with
    | [] => none
    | a :: _ => if isHTTPLooking a then some a else none
  else none

/-- Trust-anchor resolution of `signCertificateRequest`
(certificate.go lines 356-372): pinned bootstrap from the token, or
explicit `--ca-url` plus a root file (`--root` or the default path). -/
def resolveClientOptions (env : Env) (claims : TokenClaims)
    (caURL root : String) : Except Err (String × List ClientOption) :=
  match pinnedBootstrap claims with
  | some aud => .ok (aud, [ClientOption.withRootSHA256 claims.sha])
  | none =>
    if caURL.length = 0 then
      .error (.requiredFlag "ca-url")
    else if root.length = 0 then
      if env.rootCAPathExists then
        .ok (caURL, [ClientOption.withRootFile env.rootCAPath])
      else
        .error (.requiredFlag "root")
    else
      .ok (caURL, [ClientOption.withRootFile root])

/-- `signCertificateRequest(ctx, token, csr, crtFile)`
(certificate.go lines 330-402). -/
def signCertificateRequest (env : Env) (ctx : Ctx) (token : String)
    (csr : CertificateRequest) (crtFile : String) :
    Except Err Unit × Trace :=
  match env.parseTimeOrDuration ctx.notBefore with
  | none => (.error (.invalidFlagValue "not-before" ctx.notBefore), Trace.empty)
  | some notBefore =>
    match env.parseTimeOrDuration ctx.notAfter with
    | none => (.error (.invalidFlagValue "not-after" ctx.notAfter), Trace.empty)
    | some notAfter =>
      match env.parseToken token with
      | .error _ => (.error .tokenParseError, Trace.empty)
      | .ok claims =>
        if strToLower claims.subject ≠ strToLower csr.commonName then
          (.error (.subjectMismatch claims.subject csr.commonName), Trace.empty)
        else
          match resolveClientOptions env claims ctx.caURL ctx.root with
          | .error e => (.error e, Trace.empty)
          | .ok (caURL, options) =>
            match env.newClient caURL options with
            | .error _ =>
              (.error .newClientError,
               { Trace.empty with
                 networkCalls := 1,
                 clientsCreated := [(caURL, options)] })
            | .ok _ =>
              let req : SignRequest :=
                { csrPEM := csr, ott := token,
                  notBefore := notBefore, notAfter := notAfter }
              let t : Trace :=
                { networkCalls := 2, keysGenerated := 0,
                  clientsCreated := [(caURL, options)],
                  signRequests := [req], filesWritten := [] }
              match env.clientSign req with
              | .error _ => (.error .signError, t)
              | .ok resp =>
                match env.serialize resp.serverPEM with
                | .error _ => (.error .serializeError, t)
                | .ok serverBlock =>
                  match env.serialize resp.caPEM with
                  | .error _ => (.error .serializeError, t)
                  | .ok caBlock =>
                    let data := env.pemEncodeToMemory serverBlock ++
                      env.pemEncodeToMemory caBlock
                    if env.writeFileOk crtFile then
                      (.ok (),
                       { t with filesWritten := [(crtFile, data, mode0600)] })
                    else
                      (.error (.fileError crtFile), t)

/-- `signCertificateTokenFlow(ctx, subject)` (certificate.go lines
235-270): require `--ca-url`, find a root file, parse validity flags,
prompt for an empty subject, then run the token flow (which contacts
the CA, counted as one network call). -/
def signCertificateTokenFlow (env : Env) (ctx : Ctx) (subject : String) :
    Except Err String × Trace :=
  if ctx.caURL.length = 0 then
    (.error (.requiredUnlessFlag "ca-url" "token"), Trace.empty)
  else
    match
      (if ctx.root.length = 0 then
        if env.rootCAPathExists then Except.ok env.rootCAPath
        else Except.error (Err.requiredUnlessFlag "root" "token")
      else Except.ok ctx.root) with
    | .error e => (.error e, Trace.empty)
    | .ok root =>
      match env.parseTimeOrDuration ctx.notBefore with
      | none => (.error (.invalidFlagValue "not-before" ctx.notBefore), Trace.empty)
      | some notBefore =>
        match env.parseTimeOrDuration ctx.notAfter with
        | none => (.error (.invalidFlagValue "not-after" ctx.notAfter), Trace.empty)
        | some notAfter =>
          match
            (if subject = "" then
              match env.prompt with
              | .error _ => Except.error Err.promptError
              | .ok s => Except.ok s
            else Except.ok subject) with
          | .error e => (.error e, Trace.empty)
          | .ok subj =>
            match env.newTokenFlow subj ctx.san ctx.caURL root notBefore notAfter with
            | .error _ =>
              (.error .tokenFlowError, { Trace.empty with networkCalls := 1 })
            | .ok tok =>
              (.ok tok, { Trace.empty with networkCalls := 1 })

/-- The tail of `newCertificateAction` after the hostname check
(certificate.go lines 179-190): sign the request, then serialize the
fresh private key to `keyFile` with mode 0600. -/
def newCertFinish (env : Env) (ctx : Ctx) (token : String)
    (csr : CertificateRequest) (pk : String) (crtFile keyFile : String) :
    Except Err Unit × Trace :=
  match signCertificateRequest env ctx token csr crtFile with
  | (.error e, t) => (.error e, t)
  | (.ok _, t) =>
    match env.serializeKeyToFile pk with
    | .error _ => (.error .serializeError, t)
    | .ok keyPem =>
      (.ok (), { t with filesWritten := t.filesWritten ++ [(keyFile, keyPem, mode0600)] })

/-- The online tail of `newCertificateAction` once a token is in hand
(certificate.go lines 170-190): `ca.CreateSignRequest` (fresh key
pair), case-insensitive hostname / CSR-common-name check, then
`newCertFinish`. -/
def newCertOnline (env : Env) (ctx : Ctx) (token : String)
    (hostname crtFile keyFile : String) : Except Err Unit × Trace :=
  match env.createSignRequest token with
  | .error _ => (.error .createSignRequestError, Trace.empty)
  | .ok (csr, pk) =>
    let t1 : Trace := { Trace.empty with keysGenerated := 1 }
    if strToLower hostname ≠ strToLower csr.commonName then
      (.error (.subjectMismatch csr.commonName hostname), t1)
    else
      let r := newCertFinish env ctx token csr pk crtFile keyFile
      (r.1, t1.append r.2)

/-- `signCertificateOfflineFlow(ctx, subject, crtFile, keyFile)`
(certificate.go lines 272-328). -/
def signCertificateOfflineFlow (env : Env) (ctx : Ctx)
    (subject crtFile keyFile : String) : Except Err Unit × Trace :=
  if ctx.caConfig = "" then
    (.error (.invalidFlagValue "ca-config" ""), Trace.empty)
  else
    match env.newOfflineCA ctx.caConfig with
    | .error _ => (.error .offlineCAError, Trace.empty)
    | .ok _ =>
      match env.generateToken subject with
      | .error _ => (.error .generateTokenError, Trace.empty)
      | .ok token =>
        match env.createSignRequest token with
        | .error _ => (.error .createSignRequestError, Trace.empty)
        | .ok (csr, pk) =>
          let tKey : Trace := { Trace.empty with keysGenerated := 1 }
          match env.parseValidity with
          | .error _ => (.error .parseValidityError, tKey)
          | .ok (notBefore, notAfter) =>
            let req : SignRequest :=
              { csrPEM := csr, ott := token,
                notBefore := notBefore, notAfter := notAfter }
            let t : Trace := { tKey with signRequests := [req] }
            match env.offlineSign req with
            | .error _ => (.error .signError, t)
            | .ok resp =>
              match env.serialize resp.serverPEM with
              | .error _ => (.error .serializeError, t)
              | .ok serverBlock =>
                match env.serialize resp.caPEM with
                | .error _ => (.error .serializeError, t)
                | .ok caBlock =>
                  let data := env.pemEncodeToMemory serverBlock ++
                    env.pemEncodeToMemory caBlock
                  if env.writeFileOk crtFile then
                    match env.serializeKeyToFile pk with
                    | .error _ =>
                      (.error .serializeError,
                       { t with filesWritten := [(crtFile, data, mode0600)] })
                    | .ok keyPem =>
                      (.ok (),
                       { t with filesWritten :=
                           [(crtFile, data, mode0600),
                            (keyFile, keyPem, mode0600)] })
                  else
                    (.error (.fileError crtFile), t)

/-- `newCertificateAction` (certificate.go lines 134-191), after the
positional arguments `<subject> <crt-file> <key-file>` have been
read (flag/argument parsing is outside this core). -/
def newCertificateAction (env : Env) (ctx : Ctx)
    (hostname crtFile keyFile : String) : Except Err Unit × Trace :=
  if ctx.offline && ctx.token.length != 0 then
    (.error (.incompatibleFlags "offline" "token"), Trace.empty)
  else if ctx.offline then
    signCertificateOfflineFlow env ctx hostname crtFile keyFile
  else if ctx.token.length = 0 then
    match signCertificateTokenFlow env ctx hostname with
    | (.error e, t) => (.error e, t)
    | (.ok tok, t) =>
      let r := newCertOnline env ctx tok hostname crtFile keyFile
      (r.1, t.append r.2)
  else if 0 < ctx.san.length then
    (.error (.mutuallyExclusiveFlags "token" "san"), Trace.empty)
  else
    newCertOnline env ctx ctx.token hostname crtFile keyFile

/-- `signCertificateAction` (certificate.go lines 193-228), after the
positional arguments `<csr-file> <crt-file>` have been read. -/
def signCertificateAction (env : Env) (ctx : Ctx)
    (csrFile crtFile : String) : Except Err Unit × Trace :=
  match env.pemRead csrFile with
  | .error _ => (.error .pemReadError, Trace.empty)
  | .ok (.other _) => (.error (.notACertificateRequest csrFile), Trace.empty)
  | .ok (.certificateRequest csr) =>
    if ctx.token.length = 0 then
      match signCertificateTokenFlow env ctx csr.commonName with
      | (.error e, t) => (.error e, t)
      | (.ok tok, t) =>
        let r := signCertificateRequest env ctx tok csr crtFile
        (r.1, t.append r.2)
    else
      signCertificateRequest env ctx ctx.token csr crtFile

/-! ## Concrete sample environments (for witnesses and counterexamples) -/

def sampleCSR : CertificateRequest := { commonName := "internal.example.com" }

def sampleClaims : TokenClaims :=
  { sha := "abc123", subject := "internal.example.com",
    audience := ["https://ca.example.com"] }

/-- An environment in which every collaborator succeeds with fixed
concrete values. -/
def okEnv : Env where
  createSignRequest := fun _ => .ok (sampleCSR, "pk")
  parseToken := fun _ => .ok sampleClaims
  rootCAPath := "/home/user/.step/certs/root_ca.crt"
  rootCAPathExists := true
  parseTimeOrDuration := fun _ => some none
  prompt := .ok "internal.example.com"
  newTokenFlow := fun _ _ _ _ _ _ => .ok "flowtok"
  newClient := fun _ _ => .ok ()
  clientSign := fun _ => .ok { serverPEM := ⟨"LEAF"⟩, caPEM := ⟨"AUTHORITY"⟩ }
  serialize := fun c => .ok ⟨c.raw⟩
  pemEncodeToMemory := fun b => "PEM(" ++ b.raw ++ ")"
  serializeKeyToFile := fun pk => .ok ("KEYPEM(" ++ pk ++ ")")
  writeFileOk := fun _ => true
  pemRead := fun _ => .ok (.certificateRequest sampleCSR)
  newOfflineCA := fun _ => .ok ()
  generateToken := fun _ => .ok "offtok"
  offlineSign := fun _ => .ok { serverPEM := ⟨"LEAF"⟩, caPEM := ⟨"AUTHORITY"⟩ }
  parseValidity := .ok (none, none)

/-- All flags at their zero values. -/
def baseCtx : Ctx :=
  { token := "", offline := false, san := [], caURL := "", root := "",
    notBefore := "", notAfter := "", caConfig := "" }

/-! ## Helper lemmas -/

theorem string_length_ne_zero {s : String} (h : s ≠ "") : s.length ≠ 0 := by
  intro h0
  apply h
  cases s with
  | mk data =>
    cases data with
    | nil => rfl
    | cons c cs => simp [String.length] at h0

/-! ## Claims -/

/-- C5: whenever offline mode is selected and an explicit token is
also supplied, `newCertificateAction` fails at once with the
incompatible-flags configuration error; the result is the same for
every environment, so no token parsing, key generation, identity
check, or authority contact takes place (the trace is empty). -/
theorem offline_and_token_incompatible (env : Env) (ctx : Ctx)
    (hostname crtFile keyFile : String)
    (hoff : ctx.offline = true) (htok : ctx.token ≠ "") :
    newCertificateAction env ctx hostname crtFile keyFile
      = (.error (.incompatibleFlags "offline" "token"), Trace.empty) := by
  have hlen : ctx.token.length ≠ 0 := string_length_ne_zero htok
  simp [newCertificateAction, hoff, hlen]

theorem offline_and_token_incompatible_witness :
    newCertificateAction okEnv
        { baseCtx with token := "tok", offline := true }
        "h.example.com" "c.crt" "k.key"
      = (.error (.incompatibleFlags "offline" "token"), Trace.empty) :=
  offline_and_token_incompatible okEnv
    { baseCtx with token := "tok", offline := true }
    "h.example.com" "c.crt" "k.key" rfl (by decide)

/-- C1 counterexample: with offline mode also selected, supplying both
a token and a SAN does NOT produce the mutually-exclusive-options
error; the incompatible-flags check fires first. -/
def ctxOfflineTokenSan : Ctx :=
  { baseCtx with token := "tok", offline := true, san := ["x.example.com"] }

theorem token_and_san_with_offline_gives_other_error :
    (newCertificateAction okEnv ctxOfflineTokenSan
        "h.example.com" "c.crt" "k.key").1
      = .error (.incompatibleFlags "offline" "token")
    ∧ (newCertificateAction okEnv ctxOfflineTokenSan
        "h.example.com" "c.crt" "k.key").1
      ≠ .error (.mutuallyExclusiveFlags "token" "san") := by
  constructor
  · rfl
  · intro h
    rw [show (newCertificateAction okEnv ctxOfflineTokenSan
          "h.example.com" "c.crt" "k.key").1
        = Except.error (Err.incompatibleFlags "offline" "token") from rfl] at h
    exact Err.noConfusion (Except.error.inj h)

/-- C1 (amended): provided offline mode is not selected, supplying an
explicit token together with a non-empty SAN list makes
`newCertificateAction` fail with the mutually-exclusive-options error,
for every environment and all other inputs, with an empty trace (in
particular no network call is attempted). -/
theorem token_and_san_mutually_exclusive (env : Env) (ctx : Ctx)
    (hostname crtFile keyFile : String)
    (hoff : ctx.offline = false) (htok : ctx.token ≠ "") (hsan : ctx.san ≠ []) :
    newCertificateAction env ctx hostname crtFile keyFile
      = (.error (.mutuallyExclusiveFlags "token" "san"), Trace.empty) := by
  have hlen : ctx.token.length ≠ 0 := string_length_ne_zero htok
  have hsl : 0 < ctx.san.length := List.length_pos.mpr hsan
  simp [newCertificateAction, hoff, hlen, hsl]

theorem token_and_san_mutually_exclusive_witness :
    newCertificateAction okEnv
        { baseCtx with token := "tok", san := ["x.example.com"] }
        "h.example.com" "c.crt" "k.key"
      = (.error (.mutuallyExclusiveFlags "token" "san"), Trace.empty) :=
  token_and_san_mutually_exclusive okEnv
    { baseCtx with token := "tok", san := ["x.example.com"] }
    "h.example.com" "c.crt" "k.key" rfl (by decide) (by decide)

/-- C6: the offline flow with no `--ca-config` path fails at once with
the invalid-flag-value configuration error; the result is the same for
every environment, so no key generation is attempted (the trace is
empty, `keysGenerated = 0`). -/
theorem offline_missing_config_fails_before_keygen (env : Env) (ctx : Ctx)
    (subject crtFile keyFile : String) (h : ctx.caConfig = "") :
    signCertificateOfflineFlow env ctx subject crtFile keyFile
      = (.error (.invalidFlagValue "ca-config" ""), Trace.empty) := by
  simp [signCertificateOfflineFlow, h]

theorem offline_missing_config_fails_before_keygen_witness :
    signCertificateOfflineFlow okEnv baseCtx
        "h.example.com" "c.crt" "k.key"
      = (.error (.invalidFlagValue "ca-config" ""), Trace.empty) :=
  offline_missing_config_fails_before_keygen okEnv baseCtx
    "h.example.com" "c.crt" "k.key" rfl

/-- C7: if the CSR file decodes to a PEM object of any type other than
a certificate signing request, `signCertificateAction` fails with the
not-a-certificate-request error and the trace is empty (no signing
exchange is attempted). -/
theorem sign_rejects_non_csr_pem (env : Env) (ctx : Ctx)
    (csrFile crtFile kind : String)
    (h : env.pemRead csrFile = .ok (.other kind)) :
    signCertificateAction env ctx csrFile crtFile
      = (.error (.notACertificateRequest csrFile), Trace.empty) := by
  simp [signCertificateAction, h]

def certPemEnv : Env :=
  { okEnv with pemRead := fun _ => .ok (.other "CERTIFICATE") }

theorem sign_rejects_non_csr_pem_witness :
    signCertificateAction certPemEnv baseCtx "f.csr" "c.crt"
      = (.error (.notACertificateRequest "f.csr"), Trace.empty) :=
  sign_rejects_non_csr_pem certPemEnv baseCtx "f.csr" "c.crt" "CERTIFICATE" rfl

/-- Trust-anchor resolution can only fail by requiring `--ca-url` or a
root file; it never reports an identity mismatch. -/
theorem resolveClientOptions_error_shape (env : Env) (claims : TokenClaims)
    (caURL root : String) (e : Err)
    (h : resolveClientOptions env claims caURL root = .error e) :
    e = .requiredFlag "ca-url" ∨ e = .requiredFlag "root" := by
  unfold resolveClientOptions at h
  split at h
  · simp at h
  · split at h
    · simp at h
      exact Or.inl h.symm
    · split at h
      · split at h
        · simp at h
        · simp at h
          exact Or.inr h.symm
      · simp at h

/-- Every CA client created by `signCertificateRequest` uses exactly
the URL and trust options chosen by trust-anchor resolution on the
parsed token claims. -/
theorem signCertificateRequest_clients (env : Env) (ctx : Ctx) (token : String)
    (csr : CertificateRequest) (crtFile : String) :
    ∀ cu ∈ (signCertificateRequest env ctx token csr crtFile).2.clientsCreated,
      ∃ claims, env.parseToken token = .ok claims ∧
        resolveClientOptions env claims ctx.caURL ctx.root = .ok cu := by
  intro cu hcu
  unfold signCertificateRequest at hcu
  split at hcu
  · simp [Trace.empty] at hcu
  split at hcu
  · simp [Trace.empty] at hcu
  split at hcu
  · simp [Trace.empty] at hcu
  rename_i claims ht
  split at hcu
  · simp [Trace.empty] at hcu
  split at hcu
  · simp [Trace.empty] at hcu
  rename_i caURL2 options hres
  refine ⟨claims, ht, ?_⟩
  dsimp only at hcu
  split at hcu
  · simp [Trace.empty] at hcu
    rw [hcu]
    exact hres
  split at hcu
  · simp at hcu
    rw [hcu]
    exact hres
  split at hcu
  · simp at hcu
    rw [hcu]
    exact hres
  split at hcu
  · simp at hcu
    rw [hcu]
    exact hres
  split at hcu
  · simp at hcu
    rw [hcu]
    exact hres
  · simp at hcu
    rw [hcu]
    exact hres

/-- C2: when the parsed token claims carry a non-empty root
fingerprint and an HTTP(S)-looking first audience entry, trust-anchor
resolution deterministically selects pinned mode — the resolved
authority URL is that audience entry and the trust option is the
fingerprint pin — for every caller-supplied `--ca-url` and `--root`
(both are ignored); and every CA client `signCertificateRequest`
creates for the exchange uses exactly that URL and pin. -/
theorem pinned_trust_resolution (env : Env) (ctx : Ctx) (token : String)
    (csr : CertificateRequest) (crtFile : String)
    (claims : TokenClaims) (a : String) (rest : List String)
    (ht : env.parseToken token = .ok claims)
    (hsha : 0 < claims.sha.length)
    (haud : claims.audience = a :: rest)
    (hhttp : isHTTPLooking a = true) :
    resolveClientOptions env claims ctx.caURL ctx.root
      = .ok (a, [ClientOption.withRootSHA256 claims.sha])
    ∧ ∀ cu ∈ (signCertificateRequest env ctx token csr crtFile).2.clientsCreated,
        cu = (a, [ClientOption.withRootSHA256 claims.sha]) := by
  have hres : resolveClientOptions env claims ctx.caURL ctx.root
      = .ok (a, [ClientOption.withRootSHA256 claims.sha]) := by
    unfold resolveClientOptions pinnedBootstrap
    rw [haud]
    simp [hsha, hhttp]
  refine ⟨hres, ?_⟩
  intro cu hcu
  obtain ⟨claims2, ht2, hres2⟩ :=
    signCertificateRequest_clients env ctx token csr crtFile cu hcu
  rw [ht] at ht2
  injection ht2 with h2
  subst h2
  rw [hres] at hres2
  injection hres2 with h3
  exact h3.symm

theorem pinned_trust_resolution_witness :
    resolveClientOptions okEnv sampleClaims baseCtx.caURL baseCtx.root
      = .ok ("https://ca.example.com", [ClientOption.withRootSHA256 "abc123"])
    ∧ ∀ cu ∈ (signCertificateRequest okEnv baseCtx "tok" sampleCSR
        "c.crt").2.clientsCreated,
        cu = ("https://ca.example.com", [ClientOption.withRootSHA256 "abc123"]) :=
  pinned_trust_resolution okEnv baseCtx "tok" sampleCSR "c.crt"
    sampleClaims "https://ca.example.com" [] rfl (by decide) rfl (by decide)

/-- C3: in `signCertificateRequest` (once the validity flags and the
token parse), if the token's claimed subject equals the CSR's common
name case-insensitively the identity check accepts (no subject-
mismatch failure is possible); if they differ, the operation fails
with the subject-mismatch error and an empty trace, so no exchange
with the authority takes place. -/
theorem token_subject_matches_csr_commonname (env : Env) (ctx : Ctx)
    (token : String) (csr : CertificateRequest) (crtFile : String)
    (nb na : TimeBound) (claims : TokenClaims)
    (hb : env.parseTimeOrDuration ctx.notBefore = some nb)
    (ha : env.parseTimeOrDuration ctx.notAfter = some na)
    (ht : env.parseToken token = .ok claims) :
    (strToLower claims.subject = strToLower csr.commonName →
      ∀ s n, (signCertificateRequest env ctx token csr crtFile).1
        ≠ .error (.subjectMismatch s n))
    ∧ (strToLower claims.subject ≠ strToLower csr.commonName →
      signCertificateRequest env ctx token csr crtFile
        = (.error (.subjectMismatch claims.subject csr.commonName),
           Trace.empty)) := by
  constructor
  · intro hm s n hbad
    simp only [signCertificateRequest, hb, ha, ht] at hbad
    rw [if_neg (fun hne => hne hm)] at hbad
    split at hbad
    · rename_i e herr
      simp at hbad
      rcases resolveClientOptions_error_shape env claims ctx.caURL ctx.root e herr
        with h | h <;> simp [h] at hbad
    · rename_i caURL2 options hres
      split at hbad
      · simp at hbad
      split at hbad
      · simp at hbad
      split at hbad
      · simp at hbad
      split at hbad
      · simp at hbad
      split at hbad
      · simp at hbad
      · simp at hbad
  · intro hm
    simp only [signCertificateRequest, hb, ha, ht]
    rw [if_pos hm]

def mismatchClaims : TokenClaims :=
  { sampleClaims with subject := "other.example.com" }

def mismatchEnv : Env :=
  { okEnv with parseToken := fun _ => .ok mismatchClaims }

theorem token_subject_matches_csr_commonname_witness :
    (∀ s n, (signCertificateRequest okEnv baseCtx "tok" sampleCSR "c.crt").1
        ≠ .error (.subjectMismatch s n))
    ∧ signCertificateRequest mismatchEnv baseCtx "tok" sampleCSR "c.crt"
        = (.error (.subjectMismatch "other.example.com" "internal.example.com"),
           Trace.empty) :=
  ⟨(token_subject_matches_csr_commonname okEnv baseCtx "tok" sampleCSR "c.crt"
      none none sampleClaims rfl rfl rfl).1 (by decide),
   (token_subject_matches_csr_commonname mismatchEnv baseCtx "tok" sampleCSR "c.crt"
      none none mismatchClaims rfl rfl rfl).2 (by decide)⟩

/-- With `--offline` unset, a token supplied, and no `--san`,
`newCertificateAction` is the direct-token online flow. -/
theorem newCertificateAction_direct_token (env : Env) (ctx : Ctx)
    (hostname crtFile keyFile : String)
    (hoff : ctx.offline = false) (htok : ctx.token ≠ "") (hsan : ctx.san = []) :
    newCertificateAction env ctx hostname crtFile keyFile
      = newCertOnline env ctx ctx.token hostname crtFile keyFile := by
  have hlen : ctx.token.length ≠ 0 := string_length_ne_zero htok
  simp [newCertificateAction, hoff, hlen, hsan]

/-- C4: in the direct-token flow, after `ca.CreateSignRequest` builds
a CSR from the token, a case-insensitive mismatch between the
externally supplied hostname and the CSR common name fails the
operation with the subject-mismatch error; a case-insensitive match
passes the check and the operation proceeds to the signing step. -/
theorem hostname_must_match_generated_csr (env : Env) (ctx : Ctx)
    (hostname crtFile keyFile : String) (csr : CertificateRequest) (pk : String)
    (hoff : ctx.offline = false) (htok : ctx.token ≠ "") (hsan : ctx.san = [])
    (hcsr : env.createSignRequest ctx.token = .ok (csr, pk)) :
    (strToLower hostname ≠ strToLower csr.commonName →
      newCertificateAction env ctx hostname crtFile keyFile
        = (.error (.subjectMismatch csr.commonName hostname),
           { Trace.empty with keysGenerated := 1 }))
    ∧ (strToLower hostname = strToLower csr.commonName →
      newCertificateAction env ctx hostname crtFile keyFile
        = ((newCertFinish env ctx ctx.token csr pk crtFile keyFile).1,
           Trace.append { Trace.empty with keysGenerated := 1 }
             (newCertFinish env ctx ctx.token csr pk crtFile keyFile).2)) := by
  rw [newCertificateAction_direct_token env ctx hostname crtFile keyFile hoff htok hsan]
  constructor
  · intro hm
    simp only [newCertOnline, hcsr]
    rw [if_pos hm]
  · intro hm
    simp only [newCertOnline, hcsr]
    rw [if_neg (fun hne => hne hm)]

theorem hostname_must_match_generated_csr_witness :
    newCertificateAction okEnv { baseCtx with token := "tok" }
        "INTERNAL.Example.Com" "c.crt" "k.key"
      = ((newCertFinish okEnv { baseCtx with token := "tok" } "tok"
            sampleCSR "pk" "c.crt" "k.key").1,
         Trace.append { Trace.empty with keysGenerated := 1 }
           (newCertFinish okEnv { baseCtx with token := "tok" } "tok"
             sampleCSR "pk" "c.crt" "k.key").2) :=
  (hostname_must_match_generated_csr okEnv { baseCtx with token := "tok" }
    "INTERNAL.Example.Com" "c.crt" "k.key" sampleCSR "pk"
    rfl (by decide) rfl rfl).2 (by decide)

/-- An environment whose flag parser resolves `2h` to 7200 and `1h`
to 3600 (absolute instants after resolution, as seconds). -/
def validityEnv : Env :=
  { okEnv with parseTimeOrDuration := fun s =>
      if s = "2h" then some (some 7200)
      else if s = "1h" then some (some 3600)
      else some none }

def ctxValidity : Ctx := { baseCtx with notBefore := "2h", notAfter := "1h" }

/-- C8 counterexample: with `--not-before` resolving later than
`--not-after` (7200 vs 3600), `signCertificateRequest` still
transmits the request, whose bounds are both set with
notBefore > notAfter: the client enforces no ordering. -/
theorem validity_order_not_enforced :
    (signCertificateRequest validityEnv ctxValidity "tok" sampleCSR
        "c.crt").2.signRequests
      = [{ csrPEM := sampleCSR, ott := "tok",
           notBefore := some 7200, notAfter := some 3600 }]
    ∧ ¬ (7200 : Int) ≤ 3600 := by
  constructor
  · rfl
  · decide

/-- C8 (amended): the validity bounds of every signing request
transmitted to the authority are exactly the values resolved from the
caller's flags, passed unmodified (online: the two parsed flag values;
offline: the `parseValidity` result); unset values mean the authority
default applies.  No ordering between notBefore and notAfter is
enforced by the client. -/
theorem validity_bounds_passed_unmodified (env : Env) (ctx : Ctx) :
    (∀ (token : String) (csr : CertificateRequest) (crtFile : String)
       (nb na : TimeBound),
      env.parseTimeOrDuration ctx.notBefore = some nb →
      env.parseTimeOrDuration ctx.notAfter = some na →
      ∀ req ∈ (signCertificateRequest env ctx token csr
          crtFile).2.signRequests,
        req.notBefore = nb ∧ req.notAfter = na ∧ req.ott = token ∧
          req.csrPEM = csr)
    ∧ (∀ (subject crtFile keyFile : String) (nb na : TimeBound),
      env.parseValidity = .ok (nb, na) →
      ∀ req ∈ (signCertificateOfflineFlow env ctx subject crtFile
          keyFile).2.signRequests,
        req.notBefore = nb ∧ req.notAfter = na) := by
  constructor
  · intro token csr crtFile nb na hb ha req hreq
    simp only [signCertificateRequest, hb, ha] at hreq
    split at hreq
    · simp [Trace.empty] at hreq
    split at hreq
    · simp [Trace.empty] at hreq
    split at hreq
    · simp [Trace.empty] at hreq
    split at hreq
    · simp [Trace.empty] at hreq
    split at hreq
    · simp at hreq
      simp [hreq]
    split at hreq
    · simp at hreq
      simp [hreq]
    split at hreq
    · simp at hreq
      simp [hreq]
    split at hreq
    · simp at hreq
      simp [hreq]
    · simp at hreq
      simp [hreq]
  · intro subject crtFile keyFile nb na hv req hreq
    unfold signCertificateOfflineFlow at hreq
    by_cases hcfg : ctx.caConfig = ""
    · simp [hcfg, Trace.empty] at hreq
    rw [if_neg hcfg] at hreq
    cases h1 : env.newOfflineCA ctx.caConfig with
    | error e => simp [h1, Trace.empty] at hreq
    | ok u =>
    simp only [h1] at hreq
    cases h2 : env.generateToken subject with
    | error e => simp [h2, Trace.empty] at hreq
    | ok token =>
    simp only [h2] at hreq
    cases h3 : env.createSignRequest token with
    | error e => simp [h3, Trace.empty] at hreq
    | ok p =>
    obtain ⟨csr, pk⟩ := p
    simp only [h3] at hreq
    simp only [hv] at hreq
    cases h4 : env.offlineSign
        { csrPEM := csr, ott := token, notBefore := nb, notAfter := na } with
    | error e =>
      simp [h4, Trace.empty] at hreq
      simp [hreq]
    | ok resp =>
    simp only [h4] at hreq
    cases h5 : env.serialize resp.serverPEM with
    | error e =>
      simp [h5, Trace.empty] at hreq
      simp [hreq]
    | ok serverBlock =>
    simp only [h5] at hreq
    cases h6 : env.serialize resp.caPEM with
    | error e =>
      simp [h6, Trace.empty] at hreq
      simp [hreq]
    | ok caBlock =>
    simp only [h6] at hreq
    by_cases h7 : env.writeFileOk crtFile = true
    · simp only [h7, if_true] at hreq
      cases h8 : env.serializeKeyToFile pk with
      | error e =>
        simp [h8, Trace.empty] at hreq
        simp [hreq]
      | ok keyPem =>
        simp [h8, Trace.empty] at hreq
        simp [hreq]
    · simp [h7, Trace.empty] at hreq
      simp [hreq]

/-- The out-of-order request transmitted in the C8 counterexample
run. -/
def reqOutOfOrder : SignRequest :=
  { csrPEM := sampleCSR, ott := "tok", notBefore := some 7200,
    notAfter := some 3600 }

theorem validity_bounds_passed_unmodified_witness :
    reqOutOfOrder.notBefore = some (7200 : Int)
    ∧ reqOutOfOrder.notAfter = some (3600 : Int)
    ∧ reqOutOfOrder.ott = "tok"
    ∧ reqOutOfOrder.csrPEM = sampleCSR :=
  (validity_bounds_passed_unmodified validityEnv ctxValidity).1
    "tok" sampleCSR "c.crt" (some 7200) (some 3600) rfl rfl
    reqOutOfOrder (by decide)

/-- On success, `signCertificateRequest` writes exactly one file: the
leaf-certificate PEM followed by the authority-certificate PEM,
mode 0600. -/
theorem signCertificateRequest_ok_files (env : Env) (ctx : Ctx) (token : String)
    (csr : CertificateRequest) (crtFile : String) (t : Trace)
    (h : signCertificateRequest env ctx token csr crtFile = (.ok (), t)) :
    ∃ (resp : SignResponse) (serverBlock caBlock : PemBlock),
      env.serialize resp.serverPEM = .ok serverBlock ∧
      env.serialize resp.caPEM = .ok caBlock ∧
      t.filesWritten = [(crtFile, env.pemEncodeToMemory serverBlock ++
        env.pemEncodeToMemory caBlock, mode0600)] := by
  unfold signCertificateRequest at h
  split at h
  · simp at h
  split at h
  · simp at h
  split at h
  · simp at h
  split at h
  · simp at h
  split at h
  · simp at h
  rename_i caURL2 options hres
  dsimp only at h
  split at h
  · simp at h
  split at h
  · simp at h
  rename_i resp hsign
  split at h
  · simp at h
  rename_i serverBlock hsb
  split at h
  · simp at h
  rename_i caBlock hcb
  split at h
  · refine ⟨resp, serverBlock, caBlock, hsb, hcb, ?_⟩
    injection h with h1 h2
    rw [← h2]
  · simp at h

/-- The token-acquisition flow never writes a file. -/
theorem signCertificateTokenFlow_files (env : Env) (ctx : Ctx) (subject : String) :
    (signCertificateTokenFlow env ctx subject).2.filesWritten = [] := by
  unfold signCertificateTokenFlow
  split
  · rfl
  split
  · rfl
  split
  · rfl
  split
  · rfl
  split
  · rfl
  split <;> rfl

/-- On success, `newCertFinish` writes the certificate pair and then
the private key, both mode 0600. -/
theorem newCertFinish_ok_files (env : Env) (ctx : Ctx) (token : String)
    (csr : CertificateRequest) (pk : String) (crtFile keyFile : String) (t : Trace)
    (h : newCertFinish env ctx token csr pk crtFile keyFile = (.ok (), t)) :
    ∃ (resp : SignResponse) (serverBlock caBlock : PemBlock) (keyPem : String),
      env.serialize resp.serverPEM = .ok serverBlock ∧
      env.serialize resp.caPEM = .ok caBlock ∧
      env.serializeKeyToFile pk = .ok keyPem ∧
      t.filesWritten = [(crtFile, env.pemEncodeToMemory serverBlock ++
          env.pemEncodeToMemory caBlock, mode0600),
        (keyFile, keyPem, mode0600)] := by
  unfold newCertFinish at h
  split at h
  · simp at h
  rename_i u t0 hsr
  cases u
  obtain ⟨resp, serverBlock, caBlock, hsb, hcb, hfw⟩ :=
    signCertificateRequest_ok_files env ctx token csr crtFile t0 hsr
  split at h
  · simp at h
  rename_i keyPem hkp
  refine ⟨resp, serverBlock, caBlock, keyPem, hsb, hcb, hkp, ?_⟩
  injection h with h1 h2
  rw [← h2]
  simp [hfw]

/-- On success, the online tail of `newCertificateAction` (key
generation, hostname check, signing, key write) writes exactly the
certificate pair and the key, both mode 0600. -/
theorem newCertOnline_ok_files (env : Env) (ctx : Ctx) (token : String)
    (hostname crtFile keyFile : String) (t : Trace)
    (h : newCertOnline env ctx token hostname crtFile keyFile = (.ok (), t)) :
    ∃ (resp : SignResponse) (serverBlock caBlock : PemBlock) (keyPem : String),
      env.serialize resp.serverPEM = .ok serverBlock ∧
      env.serialize resp.caPEM = .ok caBlock ∧
      t.filesWritten = [(crtFile, env.pemEncodeToMemory serverBlock ++
          env.pemEncodeToMemory caBlock, mode0600),
        (keyFile, keyPem, mode0600)] := by
  unfold newCertOnline at h
  split at h
  · simp at h
  rename_i csr pk hcsr
  dsimp only at h
  split at h
  · simp at h
  cases hfin : newCertFinish env ctx token csr pk crtFile keyFile with
  | mk r1 r2 =>
    rw [hfin] at h
    dsimp only at h
    injection h with h1 h2
    rw [h1] at hfin
    obtain ⟨resp, serverBlock, caBlock, keyPem, hsb, hcb, hkp, hfw⟩ :=
      newCertFinish_ok_files env ctx token csr pk crtFile keyFile r2 hfin
    refine ⟨resp, serverBlock, caBlock, keyPem, hsb, hcb, ?_⟩
    rw [← h2]
    simp [Trace.append, Trace.empty, hfw]

/-- On success, the offline flow writes exactly the certificate pair
and the key, both mode 0600. -/
theorem signCertificateOfflineFlow_ok_files (env : Env) (ctx : Ctx)
    (subject crtFile keyFile : String) (t : Trace)
    (h : signCertificateOfflineFlow env ctx subject crtFile keyFile = (.ok (), t)) :
    ∃ (resp : SignResponse) (serverBlock caBlock : PemBlock) (keyPem : String),
      env.serialize resp.serverPEM = .ok serverBlock ∧
      env.serialize resp.caPEM = .ok caBlock ∧
      t.filesWritten = [(crtFile, env.pemEncodeToMemory serverBlock ++
          env.pemEncodeToMemory caBlock, mode0600),
        (keyFile, keyPem, mode0600)] := by
  unfold signCertificateOfflineFlow at h
  split at h
  · simp at h
  split at h
  · simp at h
  split at h
  · simp at h
  split at h
  · simp at h
  rename_i csr pk hcsr
  dsimp only at h
  split at h
  · simp at h
  split at h
  · simp at h
  rename_i resp hsign
  split at h
  · simp at h
  rename_i serverBlock hsb
  split at h
  · simp at h
  rename_i caBlock hcb
  split at h
  · split at h
    · simp at h
    rename_i keyPem hkp
    refine ⟨resp, serverBlock, caBlock, keyPem, hsb, hcb, ?_⟩
    injection h with h1 h2
    rw [← h2]
  · simp at h

/-- C9: every successful issuance writes the certificate artifact as
exactly two concatenated PEM blocks — leaf certificate first, then
authority certificate — with mode 0600; `newCertificateAction`
(online or offline) additionally writes the freshly generated private
key as PEM with mode 0600, and `signCertificateAction` (no key
generated) writes only the certificate file. -/
theorem success_writes_cert_pair_and_key_mode0600 (env : Env) (ctx : Ctx) :
    (∀ (hostname crtFile keyFile : String) (t : Trace),
      newCertificateAction env ctx hostname crtFile keyFile = (.ok (), t) →
      ∃ (resp : SignResponse) (serverBlock caBlock : PemBlock) (keyPem : String),
        env.serialize resp.serverPEM = .ok serverBlock ∧
        env.serialize resp.caPEM = .ok caBlock ∧
        t.filesWritten = [(crtFile, env.pemEncodeToMemory serverBlock ++
            env.pemEncodeToMemory caBlock, mode0600),
          (keyFile, keyPem, mode0600)])
    ∧ (∀ (csrFile crtFile : String) (t : Trace),
      signCertificateAction env ctx csrFile crtFile = (.ok (), t) →
      ∃ (resp : SignResponse) (serverBlock caBlock : PemBlock),
        env.serialize resp.serverPEM = .ok serverBlock ∧
        env.serialize resp.caPEM = .ok caBlock ∧
        t.filesWritten = [(crtFile, env.pemEncodeToMemory serverBlock ++
            env.pemEncodeToMemory caBlock, mode0600)]) := by
  constructor
  · intro hostname crtFile keyFile t h
    unfold newCertificateAction at h
    split at h
    · simp at h
    split at h
    · exact signCertificateOfflineFlow_ok_files env ctx hostname crtFile keyFile t h
    split at h
    · split at h
      · simp at h
      rename_i tok t0 hflow
      dsimp only at h
      cases hon : newCertOnline env ctx tok hostname crtFile keyFile with
      | mk r1 r2 =>
        rw [hon] at h
        dsimp only at h
        injection h with h1 h2
        rw [h1] at hon
        obtain ⟨resp, serverBlock, caBlock, keyPem, hsb, hcb, hfw⟩ :=
          newCertOnline_ok_files env ctx tok hostname crtFile keyFile r2 hon
        have hb0 := signCertificateTokenFlow_files env ctx hostname
        rw [hflow] at hb0
        dsimp only at hb0
        refine ⟨resp, serverBlock, caBlock, keyPem, hsb, hcb, ?_⟩
        rw [← h2]
        simp [Trace.append, hfw, hb0]
    split at h
    · simp at h
    · exact newCertOnline_ok_files env ctx ctx.token hostname crtFile keyFile t h
  · intro csrFile crtFile t h
    unfold signCertificateAction at h
    split at h
    · simp at h
    · simp at h
    rename_i csr hread
    split at h
    · split at h
      · simp at h
      rename_i tok t0 hflow
      dsimp only at h
      cases hsr : signCertificateRequest env ctx tok csr crtFile with
      | mk r1 r2 =>
        rw [hsr] at h
        dsimp only at h
        injection h with h1 h2
        rw [h1] at hsr
        obtain ⟨resp, serverBlock, caBlock, hsb, hcb, hfw⟩ :=
          signCertificateRequest_ok_files env ctx tok csr crtFile r2 hsr
        have hb0 := signCertificateTokenFlow_files env ctx csr.commonName
        rw [hflow] at hb0
        dsimp only at hb0
        refine ⟨resp, serverBlock, caBlock, hsb, hcb, ?_⟩
        rw [← h2]
        simp [Trace.append, hfw, hb0]
    · exact signCertificateRequest_ok_files env ctx ctx.token csr crtFile t h

def ctxTok : Ctx := { baseCtx with token := "tok" }

theorem success_writes_cert_pair_and_key_mode0600_witness :
    ∃ (resp : SignResponse) (serverBlock caBlock : PemBlock) (keyPem : String),
      okEnv.serialize resp.serverPEM = .ok serverBlock ∧
      okEnv.serialize resp.caPEM = .ok caBlock ∧
      (newCertificateAction okEnv ctxTok "internal.example.com" "c.crt"
          "k.key").2.filesWritten
        = [("c.crt", okEnv.pemEncodeToMemory serverBlock ++
              okEnv.pemEncodeToMemory caBlock, mode0600),
           ("k.key", keyPem, mode0600)] :=
  (success_writes_cert_pair_and_key_mode0600 okEnv ctxTok).1
    "internal.example.com" "c.crt" "k.key"
    (newCertificateAction okEnv ctxTok "internal.example.com" "c.crt" "k.key").2
    (by rfl)

/-- The token-acquisition flow never generates a key pair. -/
theorem signCertificateTokenFlow_keys (env : Env) (ctx : Ctx) (subject : String) :
    (signCertificateTokenFlow env ctx subject).2.keysGenerated = 0 := by
  unfold signCertificateTokenFlow
  split
  · rfl
  split
  · rfl
  split
  · rfl
  split
  · rfl
  split
  · rfl
  split <;> rfl

/-- C10: in the online new-certificate flow — whether the token was
supplied directly (token set, no SANs) or acquired through the token
flow (token empty) — when the case-insensitive hostname /
CSR-common-name check fails, the operation returns the mismatch error
with no file written at all (`filesWritten = []`), even though a
fresh key pair was already generated (`keysGenerated = 1`). -/
theorem mismatch_leaves_no_artifact_despite_keygen (env : Env) (ctx : Ctx)
    (hostname crtFile keyFile tok : String) (t0 : Trace)
    (csr : CertificateRequest) (pk : String)
    (hoff : ctx.offline = false)
    (hpath : (ctx.token ≠ "" ∧ ctx.san = [] ∧ tok = ctx.token ∧ t0 = Trace.empty)
      ∨ (ctx.token = ""
         ∧ signCertificateTokenFlow env ctx hostname = (.ok tok, t0)))
    (hcsr : env.createSignRequest tok = .ok (csr, pk))
    (hm : strToLower hostname ≠ strToLower csr.commonName) :
    (newCertificateAction env ctx hostname crtFile keyFile).1
      = .error (.subjectMismatch csr.commonName hostname)
    ∧ (newCertificateAction env ctx hostname crtFile keyFile).2.filesWritten = []
    ∧ (newCertificateAction env ctx hostname crtFile keyFile).2.keysGenerated
        = 1 := by
  have hon : newCertOnline env ctx tok hostname crtFile keyFile
      = (.error (.subjectMismatch csr.commonName hostname),
         { Trace.empty with keysGenerated := 1 }) := by
    simp only [newCertOnline, hcsr]
    rw [if_pos hm]
  rcases hpath with ⟨htok, hsan, htk, ht0⟩ | ⟨htok, hflow⟩
  · subst htk
    rw [newCertificateAction_direct_token env ctx hostname crtFile keyFile hoff htok hsan]
    rw [hon]
    exact ⟨rfl, rfl, rfl⟩
  · have hlen : ctx.token.length = 0 := by
      rw [htok]
      rfl
    have hfw0 := signCertificateTokenFlow_files env ctx hostname
    have hkg0 := signCertificateTokenFlow_keys env ctx hostname
    rw [hflow] at hfw0 hkg0
    dsimp only at hfw0 hkg0
    refine ⟨?_, ?_, ?_⟩ <;>
      simp [newCertificateAction, hoff, hlen, hflow, hon, Trace.append,
        Trace.empty, hfw0, hkg0]

/-- Flags for a token-acquisition run: no token supplied, an authority
URL configured. -/
def ctxTokFlow : Ctx := { baseCtx with caURL := "https://ca.example.com" }

theorem mismatch_leaves_no_artifact_despite_keygen_witness :
    (newCertificateAction okEnv ctxTokFlow "foo.example.com" "c.crt" "k.key").1
      = .error (.subjectMismatch "internal.example.com" "foo.example.com")
    ∧ (newCertificateAction okEnv ctxTokFlow "foo.example.com" "c.crt"
        "k.key").2.filesWritten = []
    ∧ (newCertificateAction okEnv ctxTokFlow "foo.example.com" "c.crt"
        "k.key").2.keysGenerated = 1 :=
  mismatch_leaves_no_artifact_despite_keygen okEnv ctxTokFlow
    "foo.example.com" "c.crt" "k.key" "flowtok"
    { Trace.empty with networkCalls := 1 } sampleCSR "pk"
    rfl (Or.inr ⟨rfl, rfl⟩) rfl (by decide)

end StepCA
